import Mathlib

/-!
A shallow embedding of `src/src/math/webgl/shader_compiler.ts` (deeplearnjs).

The source is a small compiler that turns shape descriptors into the text of a
WebGL fragment shader.  Two layers are embedded here:

* the string-producing generator functions themselves (`makeShader`,
  `getInputSamplingSnippet`, `getOutputSamplingSnippet`, the per-rank
  `getSampler*` functions and the snippet constants), faithful to the
  TypeScript template literals (braces are written with `\x7b`/`\x7d`
  escapes, interpolations become string concatenation, `throw` becomes
  `Except.error`);
* the integer / rational arithmetic that the emitted GLSL performs
  (texel addressing, the stride law, the broadcast address resolution and
  the unsigned-byte codec), each definition transcribed from the formula in
  the corresponding emitted snippet.

The numeric constants of `tex_util.ts` (`FLOAT_MIN`, `FLOAT_MAX`,
`BYTE_NAN_VALUE`) are not part of the staged sources; they are modelled from
the spec where needed, and the codec theorems are stated for arbitrary bounds
`MIN < MAX` instead of a fixed pair.
-/

namespace ShaderCompiler

/-- `TextureChannelPackingFormat` from `../ndarray` (only its declaration is
needed here: the enumeration of packing formats; the compiler mentions `R`
and `RGBA_1_BY_4`). -/
inductive TextureChannelPackingFormat where
  | R
  | RGBA_1_BY_4
deriving DecidableEq, Repr

/-- `ShapeInfo` (shader_compiler.ts, lines 24-28). -/
structure ShapeInfo where
  logicalShape : List Nat
  texShape : Nat × Nat
  textureChannelPackingFormat : TextureChannelPackingFormat
deriving DecidableEq, Repr

/-- `InputInfo` (shader_compiler.ts, lines 30-33). -/
structure InputInfo where
  name : String
  shapeInfo : ShapeInfo
deriving DecidableEq, Repr

/-- Modelled from the spec: `util.arraysEqual` (util.ts is not under src/);
elementwise equality of two integer sequences. -/
def arraysEqual (a b : List Nat) : Bool := a == b

/-- Modelled from the spec: `util.sizeFromShape` (util.ts is not under src/);
the product of the entries of a shape, here applied to a 2-entry texture
shape, "the input's total element count". -/
def sizeFromShape (shape : Nat × Nat) : Nat := shape.1 * shape.2

namespace tex_util

/-- Modelled from the spec: `tex_util.FLOAT_MIN` (tex_util.ts is not under
src/).  The spec fixes no numeric value ("fixed engine-wide bounds
`[MIN, MAX]`"); the scenario of spec section 8 uses `MIN = -1.0`, which is the
value used when a concrete number is interpolated into the shader text.  All
codec theorems below are stated for arbitrary bounds `MIN < MAX`. -/
def FLOAT_MIN : Int := -1

/-- Modelled from the spec: `tex_util.FLOAT_MAX` (tex_util.ts is not under
src/); the scenario of spec section 8 uses `MAX = 1.0`. -/
def FLOAT_MAX : Int := 1

/-- Modelled from the spec: `tex_util.BYTE_NAN_VALUE` (tex_util.ts is not
under src/), the channel value repeated across all four channels of the
not-a-number sentinel texel.  The spec requires a value that (a) survives the
byte texture round trip exactly, so that the decoder's equality test can fire
on an encoded NaN - hence a channel value of the form `k/255` with
`k ≤ 255` - and (b) "must never be produced by the normal encode arithmetic
for any in-range value".  The digit-extraction encoder does output constant
byte patterns below 255 for in-range inputs (the all-zero pattern at
`v = MIN`, see `encodeChannels_min` below), so `k = 255`, channel value
`1.0` - the one byte the extraction can never place in the second, third or
fourth channel - is the choice satisfying the spec; it is the value modelled
here. -/
def BYTE_NAN_VALUE : Nat := 1

end tex_util

/-! ## The shape-independent snippet constants (shader_compiler.ts 151-302) -/

/-- `SAMPLE_1D_SNIPPET` (lines 151-157). -/
def SAMPLE_1D_SNIPPET : String := "
vec2 UVfrom1D(int texNumR, int texNumC, int index) \x7b
  int texR = index / texNumC;
  int texC = index - texR * texNumC;
  return (vec2(texC, texR) + halfCR) / vec2(texNumC, texNumR);
\x7d
"

/-- `SAMPLE_2D_SNIPPET` (lines 159-166). -/
def SAMPLE_2D_SNIPPET : String := "
vec2 UVfrom2D(int texNumR, int texNumC, int numC, int row, int col) \x7b
  int index = row * numC + col;
  int texR = index / texNumC;
  int texC = index - texR * texNumC;
  return (vec2(texC, texR) + halfCR) / vec2(texNumC, texNumR);
\x7d
"

/-- `SAMPLE_3D_SNIPPET` (lines 168-177). -/
def SAMPLE_3D_SNIPPET : String := "
vec2 UVfrom3D(int texNumR, int texNumC, int stride0,
    int stride1, int row, int col, int depth) \x7b
  // Explicitly use integer operations as dot() only works on floats.
  int index = row * stride0 + col * stride1 + depth;
  int texR = index / texNumC;
  int texC = index - texR * texNumC;
  return (vec2(texC, texR) + halfCR) / vec2(texNumC, texNumR);
\x7d
"

/-- `SAMPLE_4D_SNIPPET` (lines 179-189). -/
def SAMPLE_4D_SNIPPET : String := "
vec2 UVfrom4D(int texNumR, int texNumC, int stride0,
    int stride1, int stride2, int row, int col, int depth,
    int depth2) \x7b
  // Explicitly use integer operations as dot() only works on floats.
  int index = row * stride0 + col * stride1 + depth * stride2 + depth2;
  int texR = index / texNumC;
  int texC = index - texR * texNumC;
  return (vec2(texC, texR) + halfCR) / vec2(texNumC, texNumR);
\x7d
"

/-- `SINGLE_CHANNEL_R_SET_OUTPUT_SNIPPET` (lines 191-195); referenced only by
the commented-out packing-format dispatch. -/
def SINGLE_CHANNEL_R_SET_OUTPUT_SNIPPET : String := "
void setOutput(float val) \x7b
  gl_FragColor = vec4(val, 0, 0, 0);
\x7d
"

/-- `UNSIGNED_BYTE_TEXTURE_SAMPLE_SNIPPET` (lines 197-221), with
`tex_util.FLOAT_MIN`, `tex_util.FLOAT_MAX` and `tex_util.BYTE_NAN_VALUE`
interpolated. -/
def UNSIGNED_BYTE_TEXTURE_SAMPLE_SNIPPET : String := "
  uniform float NaN;

  const vec4 floatDeltas = vec4(
      1.0,
      1.0 / 255.0,
      1.0 / (255.0 * 255.0),
      1.0 / (255.0 * 255.0 * 255.0)
  );
  const float minValue = " ++ toString tex_util.FLOAT_MIN ++ ".0;
  const float maxValue = " ++ toString tex_util.FLOAT_MAX ++ ".0;
  const float range = (maxValue - minValue) / 255.0;
  const vec2 dotRange = vec2(1.0, range);

  float sample(sampler2D texture, vec2 uv) \x7b
    vec4 sampleValue = texture2D(texture, uv);
    if (all(equal(sampleValue, vec4(" ++ toString tex_util.BYTE_NAN_VALUE ++ ")))) \x7b
      return NaN;
    \x7d

    vec4 encValue = floor(sampleValue * 255.0 + 0.5);
    float decodedValue = dot(encValue, floatDeltas);
    return dot(vec2(minValue, decodedValue), dotRange);
  \x7d
"

/-- `UNSIGNED_BYTE_TEXTURE_SETOUTPUT_SNIPPET` (lines 223-253), with
`tex_util.BYTE_NAN_VALUE` interpolated. -/
def UNSIGNED_BYTE_TEXTURE_SETOUTPUT_SNIPPET : String := "
  const vec4 floatPowers = vec4(
    1.0,
    255.0,
    255.0 * 255.0,
    255.0 * 255.0 * 255.0
  );
  const vec2 recipRange = vec2(1.0/range);
  const vec2 recipRange255 = vec2(1.0/(maxValue - minValue));

  void setOutput(float decodedValue) \x7b
    if (isNaN(decodedValue)) \x7b
      gl_FragColor = vec4(" ++ toString tex_util.BYTE_NAN_VALUE ++ ");
      return;
    \x7d

    float a = dot(vec2(decodedValue, -minValue), recipRange);
    float b = fract(a) * 255.0;
    float c = fract(b) * 255.0;
    float d = fract(c) * 255.0;
    gl_FragColor = floor(vec4(a, b, c, d)) / 255.0;

    // TODO(dsmilkov): Version above gets better accuracy but probably slower
    // than the version below. Benchmark to determine if the accuracy is worth
    // the cost.

    // float normValue = dot(vec2(decodedValue, -minValue), recipRange255);
    // vec4 f = normValue * floatPowers;
    // gl_FragColor = floor(fract(f) * 255.0) / 255.0;
  \x7d
"

/-- `FLOAT_TEXTURE_SAMPLE_SNIPPET` (lines 255-259). -/
def FLOAT_TEXTURE_SAMPLE_SNIPPET : String := "
  float sample(sampler2D texture, vec2 uv) \x7b
    return texture2D(texture, uv).r;
  \x7d
"

/-- `FLOAT_TEXTURE_SETOUTPUT_SNIPPET` (lines 261-265). -/
def FLOAT_TEXTURE_SETOUTPUT_SNIPPET : String := "
  void setOutput(float val) \x7b
    gl_FragColor = vec4(val, 0, 0, 0);
  \x7d
"

/-- `SHADER_PREFIX` (lines 267-302), with the four `SAMPLE_*_SNIPPET`
constants interpolated exactly as the template literal does. -/
def SHADER_PREFIX : String := "
  precision highp float;
  precision highp int;
  varying vec2 resultUV;
  const vec2 halfCR = vec2(0.5, 0.5);

  bool isNaN(float val) \x7b
    return val == val ? false : true;
  \x7d

  bool hasNaN(vec4 values) \x7b
    return any(notEqual(values, values));
  \x7d

  float getNaN(vec4 values) \x7b
    return dot(vec4(1), values);
  \x7d

  int round(float value) \x7b
    return int(floor(value + 0.5));
  \x7d

  const vec2 randomConst = vec2(
    23.14069263277926, // e^pi (Gelfond's constant)
     2.665144142690225 // 2^sqrt(2) (Gelfond-Schneider constant)
  );

  float random(float seed) \x7b
      return fract(cos(dot(resultUV * seed, randomConst)) * 12345.6789);
  \x7d

  " ++ SAMPLE_1D_SNIPPET ++ "
  " ++ SAMPLE_2D_SNIPPET ++ "
  " ++ SAMPLE_3D_SNIPPET ++ "
  " ++ SAMPLE_4D_SNIPPET ++ "
"

/-! ## Codec selection (shader_compiler.ts 54-64)

`ENV.get('WEBGL_FLOAT_TEXTURE_ENABLED')` is an externally resolved capability
flag; it is passed in as a boolean parameter. -/

/-- `getSampleSnippet` (lines 54-58). -/
def getSampleSnippet (webglFloatTextureEnabled : Bool) : String :=
  if webglFloatTextureEnabled then FLOAT_TEXTURE_SAMPLE_SNIPPET
  else UNSIGNED_BYTE_TEXTURE_SAMPLE_SNIPPET

/-- `getSetOutputSnippet` (lines 60-64); its `outputShapeInfo` parameter is
unused (the packing-format dispatch of lines 66-79 is commented out in the
source). -/
def getSetOutputSnippet (webglFloatTextureEnabled : Bool)
    (_outputShapeInfo : ShapeInfo) : String :=
  if webglFloatTextureEnabled then FLOAT_TEXTURE_SETOUTPUT_SNIPPET
  else UNSIGNED_BYTE_TEXTURE_SETOUTPUT_SNIPPET

/-! ## The output-coordinate decoders (shader_compiler.ts 304-412) -/

/-- `getOutput1DCoords` (lines 304-327); `shape` is unused by the source
function body. -/
def getOutput1DCoords (_shape : Nat) (texShape : Nat × Nat) : String :=
  if texShape.1 = 1 then "
      int getOutputCoords() \x7b
        return int(resultUV.x * " ++ toString texShape.2 ++ ".0);
      \x7d
    " else
  if texShape.2 = 1 then "
      int getOutputCoords() \x7b
        return int(resultUV.y * " ++ toString texShape.1 ++ ".0);
      \x7d
    " else "
    int getOutputCoords() \x7b
      ivec2 resTexRC = ivec2(resultUV.yx *
                             vec2(" ++ toString texShape.1 ++ ", " ++ toString texShape.2 ++ "));
      return resTexRC.x * " ++ toString texShape.2 ++ " + resTexRC.y;
    \x7d
  "

/-- `getOutput3DCoords` (lines 329-345). -/
def getOutput3DCoords (shape : Nat × Nat × Nat) (texShape : Nat × Nat) :
    String :=
  let stride0 := shape.2.1 * shape.2.2
  let stride1 := shape.2.2
  "
    ivec3 getOutputCoords() \x7b
      ivec2 resTexRC = ivec2(resultUV.yx *
                             vec2(" ++ toString texShape.1 ++ ", " ++ toString texShape.2 ++ "));
      int index = resTexRC.x * " ++ toString texShape.2 ++ " + resTexRC.y;
      int r = index / " ++ toString stride0 ++ ";
      index -= r * " ++ toString stride0 ++ ";
      int c = index / " ++ toString stride1 ++ ";
      int d = index - c * " ++ toString stride1 ++ ";
      return ivec3(r, c, d);
    \x7d
  "

/-- `getOutput4DCoords` (lines 347-371). -/
def getOutput4DCoords (shape : Nat × Nat × Nat × Nat) (texShape : Nat × Nat) :
    String :=
  let stride2 := shape.2.2.2
  let stride1 := shape.2.2.1 * stride2
  let stride0 := shape.2.1 * stride1
  "
    ivec4 getOutputCoords() \x7b
      ivec2 resTexRC = ivec2(resultUV.yx *
        vec2(" ++ toString texShape.1 ++ ", " ++ toString texShape.2 ++ "));
      int index = resTexRC.x * " ++ toString texShape.2 ++ " + resTexRC.y;

      int r = index / " ++ toString stride0 ++ ";
      index -= r * " ++ toString stride0 ++ ";

      int c = index / " ++ toString stride1 ++ ";
      index -= c * " ++ toString stride1 ++ ";

      int d = index / " ++ toString stride2 ++ ";
      int d2 = index - d * " ++ toString stride2 ++ ";

      return ivec4(r, c, d, d2);
    \x7d
  "

/-- `getOutput2DCoords` (lines 373-412). -/
def getOutput2DCoords (shape : Nat × Nat) (texShape : Nat × Nat) : String :=
  if arraysEqual [shape.1, shape.2] [texShape.1, texShape.2] then "
      ivec2 getOutputCoords() \x7b
        return ivec2(resultUV.yx * vec2(" ++ toString texShape.1 ++ ", " ++ toString texShape.2 ++ "));
      \x7d
    " else
  if shape.2 = 1 then "
      ivec2 getOutputCoords() \x7b
        ivec2 resTexRC = ivec2(resultUV.yx *
                               vec2(" ++ toString texShape.1 ++ ", " ++ toString texShape.2 ++ "));
        int index = resTexRC.x * " ++ toString texShape.2 ++ " + resTexRC.y;
        return ivec2(index, 0);
      \x7d
    " else
  if shape.1 = 1 then "
      ivec2 getOutputCoords() \x7b
        ivec2 resTexRC = ivec2(resultUV.yx *
                               vec2(" ++ toString texShape.1 ++ ", " ++ toString texShape.2 ++ "));
        int index = resTexRC.x * " ++ toString texShape.2 ++ " + resTexRC.y;
        return ivec2(0, index);
      \x7d
    " else "
    ivec2 getOutputCoords() \x7b
      ivec2 resTexRC = ivec2(resultUV.yx *
                             vec2(" ++ toString texShape.1 ++ ", " ++ toString texShape.2 ++ "));
      int index = resTexRC.x * " ++ toString texShape.2 ++ " + resTexRC.y;
      int r = index / " ++ toString shape.2 ++ ";
      int c = index - r * " ++ toString shape.2 ++ ";
      return ivec2(r, c);
    \x7d
  "

/-! ## The per-input samplers (shader_compiler.ts 414-640) -/

/-- The name derivation the sampler generators all perform inline:
`'get' + texName.charAt(0).toUpperCase() + texName.slice(1)`, transcribed at
character level (`charAt(0).toUpperCase()` is the upper-cased first character,
or the empty string for an empty name; `slice(1)` is the rest). -/
def derivedFuncName (texName : String) : String :=
  "get" ++
    (match texName.data with
     | [] => ""
     | ch :: _ => String.mk [ch.toUpper]) ++
    (match texName.data with
     | [] => ""
     | _ :: rest => String.mk rest)

/-- `getSamplerScalar` (lines 414-421). -/
def getSamplerScalar (texName : String) : String :=
  let funcName := derivedFuncName texName
  "
    float " ++ funcName ++ "() \x7b
      return sample(" ++ texName ++ ", halfCR);
    \x7d
  "

/-- `getSampler1D` (lines 423-456). -/
def getSampler1D (texName : String) (texShape : Nat × Nat) : String :=
  let funcName := derivedFuncName texName
  let tR := texShape.1
  let tC := texShape.2
  if texShape.1 = 1 ∧ texShape.2 = 1 then "
      float " ++ funcName ++ "(int index) \x7b
        return sample(" ++ texName ++ ", halfCR);
      \x7d
    " else
  if texShape.2 = 1 then "
      float " ++ funcName ++ "(int index) \x7b
        vec2 uv = vec2(0.5, (float(index) + 0.5) / " ++ toString tR ++ ".0);
        return sample(" ++ texName ++ ", uv);
      \x7d
    " else
  if texShape.1 = 1 then "
      float " ++ funcName ++ "(int index) \x7b
        vec2 uv = vec2((float(index) + 0.5) / " ++ toString tC ++ ".0, 0.5);
        return sample(" ++ texName ++ ", uv);
      \x7d
    " else "
    float " ++ funcName ++ "(int index) \x7b
      vec2 uv = UVfrom1D(" ++ toString tR ++ ", " ++ toString tC ++ ", index);
      return sample(" ++ texName ++ ", uv);
    \x7d
  "

/-- `getSampler3D` (lines 458-482). -/
def getSampler3D (texName : String) (shape : Nat × Nat × Nat)
    (texShape : Nat × Nat) : String :=
  let funcName := derivedFuncName texName
  let tR := texShape.1
  let tC := texShape.2
  let stride0 := shape.2.1 * shape.2.2
  let stride1 := shape.2.2
  if tC = stride0 then "
      float " ++ funcName ++ "(int row, int col, int depth) \x7b
        int texR = row;
        int texC = col * " ++ toString stride1 ++ " + depth;
        vec2 uv = (vec2(texC, texR) + halfCR) / vec2(" ++ toString tC ++ ".0, " ++ toString tR ++ ".0);
        return sample(" ++ texName ++ ", uv);
      \x7d
    " else "
    float " ++ funcName ++ "(int row, int col, int depth) \x7b
      vec2 uv = UVfrom3D(" ++ toString tR ++ ", " ++ toString tC ++ ", " ++ toString stride0 ++ ", " ++ toString stride1 ++ ", row, col, depth);
      return sample(" ++ texName ++ ", uv);
    \x7d
  "

/-- `getSampler4D` (lines 484-511). -/
def getSampler4D (texName : String) (shape : Nat × Nat × Nat × Nat)
    (texShape : Nat × Nat) : String :=
  let funcName := derivedFuncName texName
  let tR := texShape.1
  let tC := texShape.2
  let stride2 := shape.2.2.2
  let stride1 := shape.2.2.1 * stride2
  let stride0 := shape.2.1 * stride1
  if tC = stride0 then "
      float " ++ funcName ++ "(int row, int col, int depth, int depth2) \x7b
        int texR = row;
        int texC = col * " ++ toString stride1 ++ " + depth * " ++ toString stride2 ++ " + depth2;
        vec2 uv = (vec2(texC, texR) + halfCR) / vec2(" ++ toString tC ++ ".0, " ++ toString tR ++ ".0);
        return sample(" ++ texName ++ ", uv);
      \x7d
    " else "
    float " ++ funcName ++ "(int row, int col, int depth, int depth2) \x7b
      vec2 uv = UVfrom4D(" ++ toString tR ++ ", " ++ toString tC ++ ", " ++ toString stride0 ++ ", " ++ toString stride1 ++ ", " ++ toString stride2 ++ ",
          row, col, depth, depth2);
      return sample(" ++ texName ++ ", uv);
    \x7d
  "

/-- `getSampler2D` (lines 513-567). -/
def getSampler2D (texName : String) (shape : Nat × Nat)
    (texShape : Nat × Nat) : String :=
  let funcName := derivedFuncName texName
  let tR := texShape.1
  let tC := texShape.2
  if arraysEqual [shape.1, shape.2] [texShape.1, texShape.2] then "
      float " ++ funcName ++ "(int row, int col) \x7b
        vec2 uv = (vec2(col, row) + halfCR) / vec2(" ++ toString tC ++ ".0, " ++ toString tR ++ ".0);
        return sample(" ++ texName ++ ", uv);
      \x7d
    " else
  if tC = 1 then
    (if shape.1 = 1 then "
        float " ++ funcName ++ "(int row, int col) \x7b
          vec2 uv = vec2(0.5, (float(col) + 0.5) / " ++ toString tR ++ ".0);
          return sample(" ++ texName ++ ", uv);
        \x7d
      " else
     if shape.2 = 1 then "
        float " ++ funcName ++ "(int row, int col) \x7b
          vec2 uv = vec2(0.5, (float(row) + 0.5) / " ++ toString tR ++ ".0);
          return sample(" ++ texName ++ ", uv);
        \x7d
      " else "
      float " ++ funcName ++ "(int row, int col) \x7b
        int index = row * " ++ toString shape.2 ++ " + col;
        vec2 uv = vec2(0.5, (float(index) + 0.5) / " ++ toString tR ++ ".0);
        return sample(" ++ texName ++ ", uv);
      \x7d
    ") else
  if tR = 1 then "
      float " ++ funcName ++ "(int row, int col) \x7b
        int index = row * " ++ toString shape.2 ++ " + col;
        vec2 uv = vec2((float(index) + 0.5) / " ++ toString tC ++ ".0, 0.5);
        return sample(" ++ texName ++ ", uv);
      \x7d
    " else "
    float " ++ funcName ++ "(int row, int col) \x7b
      vec2 uv = UVfrom2D(" ++ toString tR ++ ", " ++ toString tC ++ ", " ++ toString shape.2 ++ ", row, col);
      return sample(" ++ texName ++ ", uv);
    \x7d
  "

/-- `getSamplerFlat` (lines 569-605). -/
def getSamplerFlat (texName : String) (texShape : Nat × Nat) : String :=
  let funcName := derivedFuncName texName ++ "Flat"
  let tNumR := texShape.1
  let tNumC := texShape.2
  if tNumC = 1 ∧ tNumR = 1 then "
      float " ++ funcName ++ "(int index) \x7b
        return sample(" ++ texName ++ ", halfCR);
      \x7d
    " else
  if tNumC = 1 then "
      float " ++ funcName ++ "(int index) \x7b
        vec2 uv = vec2(0.5, (float(index) + 0.5) / " ++ toString tNumR ++ ".0);
        return sample(" ++ texName ++ ", uv);
      \x7d
    " else
  if tNumR = 1 then "
      float " ++ funcName ++ "(int index) \x7b
        vec2 uv = vec2((float(index) + 0.5) / " ++ toString tNumC ++ ".0, 0.5);
        return sample(" ++ texName ++ ", uv);
      \x7d
    " else "
    float " ++ funcName ++ "(int index) \x7b
      int texR = index / " ++ toString tNumC ++ ";
      int texC = index - texR * " ++ toString tNumC ++ ";
      vec2 uv = (vec2(texC, texR) + halfCR) / vec2(" ++ toString tNumC ++ ".0, " ++ toString tNumR ++ ".0);
      return sample(" ++ texName ++ ", uv);
    \x7d
  "

/-- `getSamplerAtOutputCoords` (lines 607-640). -/
def getSamplerAtOutputCoords (texName : String) (inTexShape : Nat × Nat)
    (outTexShape : Nat × Nat) (broadcast : Bool) : String :=
  let funcName := derivedFuncName texName ++ "AtOutCoords"
  if arraysEqual [inTexShape.1, inTexShape.2] [outTexShape.1, outTexShape.2]
  then "
      float " ++ funcName ++ "() \x7b
        return sample(" ++ texName ++ ", resultUV);
      \x7d
    "
  else
  let inSize := sizeFromShape inTexShape
  let broadcastSnippet := if broadcast then "
      int mainPart = index / " ++ toString inSize ++ ";
      index -= mainPart * " ++ toString inSize ++ ";
    " else ""
  "
    float " ++ funcName ++ "() \x7b
      ivec2 resTexRC = ivec2(resultUV.yx *
                             vec2(" ++ toString outTexShape.1 ++ ", " ++ toString outTexShape.2 ++ "));
      int index = resTexRC.x * " ++ toString outTexShape.2 ++ " + resTexRC.y;
      " ++ broadcastSnippet ++ "
      int texR = index / " ++ toString inTexShape.2 ++ ";
      int texC = index - texR * " ++ toString inTexShape.2 ++ ";
      vec2 uv = (vec2(texC, texR) + halfCR) /
                 vec2(" ++ toString inTexShape.2 ++ ".0, " ++ toString inTexShape.1 ++ ".0);
      return sample(" ++ texName ++ ", uv);
    \x7d
  "

/-! ## Dispatch and assembly (shader_compiler.ts 35-52, 81-149) -/

/-- `getInputSamplingSnippet` (lines 81-122); the `default:` branch of the
rank switch throws, modelled as `Except.error`. -/
def getInputSamplingSnippet (inInfo : InputInfo) (outShapeInfo : ShapeInfo)
    (broadcast : Bool) : Except String String :=
  let shape := inInfo.shapeInfo.logicalShape
  let texShape := inInfo.shapeInfo.texShape
  let outTexShape := outShapeInfo.texShape
  let base : Except String String :=
    match shape with
    | [] => Except.ok (getSamplerScalar inInfo.name)
    | [_] => Except.ok (getSampler1D inInfo.name texShape)
    | [s0, s1] => Except.ok (getSampler2D inInfo.name (s0, s1) texShape)
    | [s0, s1, s2] => Except.ok (getSampler3D inInfo.name (s0, s1, s2) texShape)
    | [s0, s1, s2, s3] =>
      Except.ok (getSampler4D inInfo.name (s0, s1, s2, s3) texShape)
    | _ =>
      Except.error (toString shape.length ++ "-D input sampling" ++
        " is not yet supported")
  Except.map (fun res =>
      let res := res ++
        (if broadcast ||
            arraysEqual inInfo.shapeInfo.logicalShape outShapeInfo.logicalShape
         then getSamplerAtOutputCoords inInfo.name texShape outTexShape broadcast
         else "")
      res ++ getSamplerFlat inInfo.name texShape)
    base

/-- `getOutputSamplingSnippet` (lines 124-149); rank 0 emits no decoder, the
`default:` branch throws. -/
def getOutputSamplingSnippet (outputShapeInfo : ShapeInfo) :
    Except String String :=
  match outputShapeInfo.logicalShape with
  | [] => Except.ok ""
  | [s0] => Except.ok (getOutput1DCoords s0 outputShapeInfo.texShape)
  | [s0, s1] => Except.ok (getOutput2DCoords (s0, s1) outputShapeInfo.texShape)
  | [s0, s1, s2] =>
    Except.ok (getOutput3DCoords (s0, s1, s2) outputShapeInfo.texShape)
  | [s0, s1, s2, s3] =>
    Except.ok (getOutput4DCoords (s0, s1, s2, s3) outputShapeInfo.texShape)
  | l =>
    Except.error (toString l.length ++ "-D output sampling is not yet supported")

/-- The `inputsInfo.map(x => getInputSamplingSnippet(...))` of `makeShader`,
with the left-to-right exception propagation of a JavaScript `map` whose
callback may throw. -/
def mapInputSnippets (outShapeInfo : ShapeInfo) (broadcast : Bool) :
    List InputInfo → Except String (List String)
  | [] => Except.ok []
  | x :: xs =>
    match getInputSamplingSnippet x outShapeInfo broadcast with
    | Except.error e => Except.error e
    | Except.ok s =>
      match mapInputSnippets outShapeInfo broadcast xs with
      | Except.error e => Except.error e
      | Except.ok ss => Except.ok (s :: ss)

/-- `makeShader` (lines 35-52).  The capability flag read from
`ENV.get('WEBGL_FLOAT_TEXTURE_ENABLED')` is the first parameter. -/
def makeShader (webglFloatTextureEnabled : Bool) (inputsInfo : List InputInfo)
    (outputShapeInfo : ShapeInfo) (userCode : String) (broadcast : Bool) :
    Except String String :=
  let sampleSnippet := getSampleSnippet webglFloatTextureEnabled
  let inputPrefixSnippet := String.intercalate "\n"
    (inputsInfo.map (fun x => "uniform sampler2D " ++ x.name ++ ";"))
  match mapInputSnippets outputShapeInfo broadcast inputsInfo with
  | Except.error e => Except.error e
  | Except.ok snippets =>
    let inputSamplingSnippet := String.intercalate "\n" snippets
    match getOutputSamplingSnippet outputShapeInfo with
    | Except.error e => Except.error e
    | Except.ok outputSamplingSnippet =>
      let setOutputSnippet :=
        getSetOutputSnippet webglFloatTextureEnabled outputShapeInfo
      Except.ok (String.intercalate "\n"
        [SHADER_PREFIX, sampleSnippet, setOutputSnippet, inputPrefixSnippet,
         inputSamplingSnippet, outputSamplingSnippet, userCode])

/-! ## The arithmetic performed by the emitted GLSL

Each definition below transcribes the integer / float formula of one emitted
snippet.  GLSL `int` arithmetic on the non-negative in-range quantities
involved is ordinary integer arithmetic (`/` truncates), modelled on `Nat`;
float expressions that the claims reason about exactly are modelled on `ℚ`.
Texel addresses are `(texR, texC)` pairs. -/

/-- The flat-index-to-texel-address conversion of the generic paths
(`UVfrom1D`..`UVfrom4D` and the last branch of `getSamplerFlat`):
`texR = index / texNumC; texC = index - texR * texNumC`. -/
def flatIndexToTexel (texNumC index : Nat) : Nat × Nat :=
  let texR := index / texNumC
  (texR, index - texR * texNumC)

/-- The normalized coordinate every generic path returns for a texel address:
`(vec2(texC, texR) + halfCR) / vec2(texNumC, texNumR)`, as an `(x, y)`
pair. -/
def texelToUV (texShape : Nat × Nat) (addr : Nat × Nat) : ℚ × ℚ :=
  (((addr.2 : ℚ) + 1/2) / (texShape.2 : ℚ), ((addr.1 : ℚ) + 1/2) / (texShape.1 : ℚ))

/-- The rank-1 coordinate produced by the generated rank-1 output decoders:
every branch of `getOutput1DCoords` returns the flat index itself as the
single coordinate. -/
def output1DCoords (index : Nat) : Nat := index

/-- The flat index of a rank-1 coordinate under the stride law
(`stride_0 = 1`): `UVfrom1D` consumes the coordinate directly as the
index. -/
def UVfrom1DIndex (c0 : Nat) : Nat := c0

/-- The flat index computed by `UVfrom2D`: `index = row * numC + col`. -/
def UVfrom2DIndex (numC row col : Nat) : Nat := row * numC + col

/-- The flat index computed by `UVfrom3D`:
`index = row * stride0 + col * stride1 + depth`. -/
def UVfrom3DIndex (stride0 stride1 row col depth : Nat) : Nat :=
  row * stride0 + col * stride1 + depth

/-- The flat index computed by `UVfrom4D`:
`index = row * stride0 + col * stride1 + depth * stride2 + depth2`. -/
def UVfrom4DIndex (stride0 stride1 stride2 row col depth depth2 : Nat) : Nat :=
  row * stride0 + col * stride1 + depth * stride2 + depth2

/-- The coordinate decomposition of the generic branch of
`getOutput2DCoords`: `r = index / shape1; c = index - r * shape1`. -/
def output2DCoords (shape1 index : Nat) : Nat × Nat :=
  let r := index / shape1
  (r, index - r * shape1)

/-- The coordinate decomposition of `getOutput3DCoords`:
`r = index / stride0; index -= r * stride0; c = index / stride1;
d = index - c * stride1`. -/
def output3DCoords (stride0 stride1 index : Nat) : Nat × Nat × Nat :=
  let r := index / stride0
  let index1 := index - r * stride0
  let c := index1 / stride1
  let d := index1 - c * stride1
  (r, c, d)

/-- The coordinate decomposition of `getOutput4DCoords`. -/
def output4DCoords (stride0 stride1 stride2 index : Nat) :
    Nat × Nat × Nat × Nat :=
  let r := index / stride0
  let index1 := index - r * stride0
  let c := index1 / stride1
  let index2 := index1 - c * stride1
  let d := index2 / stride2
  let d2 := index2 - d * stride2
  (r, c, d, d2)

/-- The texel address of the fast branch of `getSampler3D` (taken when
`tC == stride0`): `texR = row; texC = col * stride1 + depth`. -/
def sampler3DFastAddr (stride1 row col depth : Nat) : Nat × Nat :=
  (row, col * stride1 + depth)

/-- The texel address of the generic branch of `getSampler3D`, via
`UVfrom3D`. -/
def sampler3DGenericAddr (texNumC stride0 stride1 row col depth : Nat) :
    Nat × Nat :=
  flatIndexToTexel texNumC (UVfrom3DIndex stride0 stride1 row col depth)

/-- The texel address of the fast branch of `getSampler4D` (taken when
`tC == stride0`): `texR = row; texC = col * stride1 + depth * stride2 +
depth2`. -/
def sampler4DFastAddr (stride1 stride2 row col depth depth2 : Nat) :
    Nat × Nat :=
  (row, col * stride1 + depth * stride2 + depth2)

/-- The texel address of the generic branch of `getSampler4D`, via
`UVfrom4D`. -/
def sampler4DGenericAddr
    (texNumC stride0 stride1 stride2 row col depth depth2 : Nat) : Nat × Nat :=
  flatIndexToTexel texNumC (UVfrom4DIndex stride0 stride1 stride2 row col depth depth2)

/-- The input texel address computed by the accessor emitted by
`getSamplerAtOutputCoords` when the input and output texture shapes differ
(lines 627-639): the output flat index `index = resTexRC.x * outTexShape[1] +
resTexRC.y` from the fragment's own texel address `resTexRC = (texR, texC)`;
when `broadcast`, the emitted `broadcastSnippet` performs
`mainPart = index / inSize; index -= mainPart * inSize`; then the generic
conversion `texR = index / inTexShape[1]; texC = index - texR *
inTexShape[1]` (the formula of `flatIndexToTexel`). -/
def atOutCoordsAddr (inTexShape outTexShape : Nat × Nat) (broadcast : Bool)
    (resTexRC : Nat × Nat) : Nat × Nat :=
  let index := resTexRC.1 * outTexShape.2 + resTexRC.2
  let inSize := sizeFromShape inTexShape
  let index := if broadcast then index - (index / inSize) * inSize else index
  flatIndexToTexel inTexShape.2 index

/-! ## The unsigned-byte codec arithmetic (the emitted snippets of lines
197-253), on exact rationals.  A float value is `Option ℚ`, `none` standing
for NaN; a texel holds four rational channel values. -/

/-- One RGBA texel: four channel values. -/
structure Texel where
  r : ℚ
  g : ℚ
  b : ℚ
  a : ℚ
deriving DecidableEq, Repr

/-- The all-channels sentinel texel `vec4(BYTE_NAN_VALUE)` written for NaN
and tested for by the decoder. -/
def nanTexel : Texel :=
  ⟨(tex_util.BYTE_NAN_VALUE : ℚ), (tex_util.BYTE_NAN_VALUE : ℚ),
   (tex_util.BYTE_NAN_VALUE : ℚ), (tex_util.BYTE_NAN_VALUE : ℚ)⟩

/-- The channel arithmetic of `setOutput` in
`UNSIGNED_BYTE_TEXTURE_SETOUTPUT_SNIPPET` for a non-NaN input:
`a = dot(vec2(decodedValue, -minValue), recipRange)` with
`recipRange = vec2(1.0/range)` and `range = (maxValue - minValue) / 255.0`;
`b = fract(a) * 255.0; c = fract(b) * 255.0; d = fract(c) * 255.0;
gl_FragColor = floor(vec4(a, b, c, d)) / 255.0`. -/
def encodeChannels (minValue maxValue v : ℚ) : Texel :=
  let range : ℚ := (maxValue - minValue) / 255
  let a : ℚ := v * (1 / range) + (-minValue) * (1 / range)
  let b : ℚ := Int.fract a * 255
  let c : ℚ := Int.fract b * 255
  let d : ℚ := Int.fract c * 255
  ⟨(⌊a⌋ : ℚ) / 255, (⌊b⌋ : ℚ) / 255, (⌊c⌋ : ℚ) / 255, (⌊d⌋ : ℚ) / 255⟩

/-- `setOutput` of `UNSIGNED_BYTE_TEXTURE_SETOUTPUT_SNIPPET`: a NaN input
(`none`) writes `vec4(BYTE_NAN_VALUE)` directly; otherwise the digit
arithmetic of `encodeChannels`. -/
def setOutputByte (minValue maxValue : ℚ) : Option ℚ → Texel
  | none => nanTexel
  | some v => encodeChannels minValue maxValue v

/-- `sample` of `UNSIGNED_BYTE_TEXTURE_SAMPLE_SNIPPET`: if all four sampled
channels equal `BYTE_NAN_VALUE` return NaN (`none`); otherwise
`encValue = floor(sampleValue * 255.0 + 0.5)`,
`decodedValue = dot(encValue, floatDeltas)` with
`floatDeltas = (1, 1/255, 1/255^2, 1/255^3)`, and the result is
`dot(vec2(minValue, decodedValue), dotRange)` with `dotRange = (1, range)`. -/
def sampleByte (minValue maxValue : ℚ) (t : Texel) : Option ℚ :=
  if t.r = (tex_util.BYTE_NAN_VALUE : ℚ) ∧ t.g = (tex_util.BYTE_NAN_VALUE : ℚ) ∧
     t.b = (tex_util.BYTE_NAN_VALUE : ℚ) ∧ t.a = (tex_util.BYTE_NAN_VALUE : ℚ)
  then none
  else
    let range : ℚ := (maxValue - minValue) / 255
    let er : ℚ := (⌊t.r * 255 + 1/2⌋ : ℚ)
    let eg : ℚ := (⌊t.g * 255 + 1/2⌋ : ℚ)
    let eb : ℚ := (⌊t.b * 255 + 1/2⌋ : ℚ)
    let ea : ℚ := (⌊t.a * 255 + 1/2⌋ : ℚ)
    let decodedValue : ℚ :=
      er * 1 + eg * (1 / 255) + eb * (1 / (255 * 255)) + ea * (1 / (255 * 255 * 255))
    some (minValue * 1 + decodedValue * range)

/-! ## Total projections of the fallible generators (used to state the
assembly contract). -/

/-- The text `getInputSamplingSnippet` returns when it does not throw. -/
def inputSamplingText (inInfo : InputInfo) (outShapeInfo : ShapeInfo)
    (broadcast : Bool) : String :=
  match getInputSamplingSnippet inInfo outShapeInfo broadcast with
  | Except.ok s => s
  | Except.error _ => ""

/-- The text `getOutputSamplingSnippet` returns when it does not throw. -/
def outputSamplingText (outputShapeInfo : ShapeInfo) : String :=
  match getOutputSamplingSnippet outputShapeInfo with
  | Except.ok s => s
  | Except.error _ => ""

/-- Substring containment: `needle` occurs contiguously in `hay`. -/
def StrContains (hay needle : String) : Prop :=
  needle.data <:+: hay.data

instance (hay needle : String) : Decidable (StrContains hay needle) :=
  inferInstanceAs (Decidable (needle.data <:+: hay.data))

/-- The naming contract of the spec, in its own words: capitalize the
identifier by upper-casing its first character, leaving the rest
unchanged. -/
def capitalize (s : String) : String :=
  match s.data with
  | [] => ""
  | ch :: rest => String.mk (ch.toUpper :: rest)

/-- Two `ShapeInfo`s that agree except possibly on the packing-format
field. -/
def SameButFormat (x y : ShapeInfo) : Prop :=
  x.logicalShape = y.logicalShape ∧ x.texShape = y.texShape

/-- Two `InputInfo`s that agree except possibly on the packing-format
field. -/
def SameButFormatInput (x y : InputInfo) : Prop :=
  x.name = y.name ∧ SameButFormat x.shapeInfo y.shapeInfo

/-! ## Helper lemmas -/

theorem sub_div_mul_eq_mod (i s : Nat) : i - i / s * s = i % s :=
  Nat.sub_eq_of_eq_add (Nat.mod_add_div' i s).symm

theorem derivedFuncName_eq (s : String) :
    derivedFuncName s = "get" ++ capitalize s := by
  obtain ⟨l⟩ := s
  cases l with
  | nil => rfl
  | cons c cs =>
    apply String.ext
    simp [derivedFuncName, capitalize, String.data_append]

theorem strContains_cat_right (s t n : String) (h : StrContains s n) :
    StrContains (s ++ t) n := by
  refine h.trans ?_
  rw [String.data_append]
  exact ⟨[], t.data, by simp⟩

/-- An occurrence that ends a left chunk (`u` a suffix of `L1`), continues
with a whole chunk `v` and reaches into the next chunk (`w` a prefix of
`B`). -/
theorem strContains_glue (L1 v B u w : String) (hu : u.data <:+ L1.data)
    (hw : w.data <+: B.data) :
    StrContains ((L1 ++ v) ++ B) ((u ++ v) ++ w) := by
  obtain ⟨a, ha⟩ := hu
  obtain ⟨r, hr⟩ := hw
  exact ⟨a, r, by simp [String.data_append, ← ha, ← hr]⟩

theorem flatIndexToTexel_of_lt (T r i : Nat) (h : i < T) :
    flatIndexToTexel T (r * T + i) = (r, i) := by
  have hT : 0 < T := lt_of_le_of_lt (Nat.zero_le i) h
  have hdiv : (r * T + i) / T = r := by
    rw [Nat.add_comm, Nat.add_mul_div_right i r hT, Nat.div_eq_of_lt h,
      Nat.zero_add]
  simp only [flatIndexToTexel, hdiv]
  rw [Nat.add_sub_cancel_left]

/-! ## The claims -/

/-- C1: for an input whose texture shape differs from the output's, the
accessor emitted by `getSamplerAtOutputCoords` with the broadcast flag set
computes the output flat index `texR * outTexCols + texC` from the current
fragment's texel address, reduces it modulo the input's total element count,
and converts the reduced index to a texel address exactly as the generic flat
path does; consequently a rank-0 input (texture shape `(1, 1)`, one element)
resolves to texel `(0, 0)`, normalized coordinate `(0.5, 0.5)`, at every
output position. -/
theorem atOutCoords_broadcast_resolution
    (inTexShape outTexShape resTexRC : Nat × Nat) :
    atOutCoordsAddr inTexShape outTexShape true resTexRC =
      flatIndexToTexel inTexShape.2
        ((resTexRC.1 * outTexShape.2 + resTexRC.2) % sizeFromShape inTexShape) ∧
    atOutCoordsAddr (1, 1) outTexShape true resTexRC = (0, 0) ∧
    texelToUV (1, 1) (atOutCoordsAddr (1, 1) outTexShape true resTexRC) =
      (1/2, 1/2) := by
  have base : ∀ inSh : Nat × Nat,
      atOutCoordsAddr inSh outTexShape true resTexRC =
        flatIndexToTexel inSh.2
          ((resTexRC.1 * outTexShape.2 + resTexRC.2) % sizeFromShape inSh) := by
    intro inSh
    simp only [atOutCoordsAddr, if_pos]
    rw [sub_div_mul_eq_mod]
  have scalar : atOutCoordsAddr (1, 1) outTexShape true resTexRC = (0, 0) := by
    rw [base (1, 1)]
    simp [sizeFromShape, flatIndexToTexel, Nat.mul_one, Nat.mod_one]
  refine ⟨base inTexShape, scalar, ?_⟩
  rw [scalar]
  simp only [texelToUV]
  norm_num

/-- C5: for a rank-3 or rank-4 shape whose texture column count equals
`stride0` (the product of all logical dimensions but the most significant
one), and for in-range coordinates, the fast-path texel address of
`getSampler3D` / `getSampler4D` (`texR = row`, `texC` by multiply-accumulate)
equals the texel address of the generic path (flat index by the stride law,
then `texR = flat / texCols`, `texC = flat mod texCols`). -/
theorem sampler_fast_path_equivalence (s1 s2 s3 row col depth depth2 : Nat)
    (hc : col < s1) (hd : depth < s2) (hd2 : depth2 < s3) :
    sampler3DFastAddr s2 row col depth =
      sampler3DGenericAddr (s1 * s2) (s1 * s2) s2 row col depth ∧
    sampler4DFastAddr (s2 * s3) s3 row col depth depth2 =
      sampler4DGenericAddr (s1 * (s2 * s3)) (s1 * (s2 * s3)) (s2 * s3) s3
        row col depth depth2 := by
  constructor
  · have hi : col * s2 + depth < s1 * s2 := by
      calc col * s2 + depth < col * s2 + s2 := by omega
        _ = (col + 1) * s2 := by ring
        _ ≤ s1 * s2 := Nat.mul_le_mul_right s2 hc
    have harr : UVfrom3DIndex (s1 * s2) s2 row col depth =
        row * (s1 * s2) + (col * s2 + depth) := by
      simp only [UVfrom3DIndex]
      ring
    simp only [sampler3DGenericAddr, harr, flatIndexToTexel_of_lt _ _ _ hi,
      sampler3DFastAddr]
  · have hinner : depth * s3 + depth2 < s2 * s3 := by
      calc depth * s3 + depth2 < depth * s3 + s3 := by omega
        _ = (depth + 1) * s3 := by ring
        _ ≤ s2 * s3 := Nat.mul_le_mul_right s3 hd
    have hi : col * (s2 * s3) + (depth * s3 + depth2) < s1 * (s2 * s3) := by
      calc col * (s2 * s3) + (depth * s3 + depth2)
          < col * (s2 * s3) + s2 * s3 := by omega
        _ = (col + 1) * (s2 * s3) := by ring
        _ ≤ s1 * (s2 * s3) := Nat.mul_le_mul_right (s2 * s3) hc
    have harr : UVfrom4DIndex (s1 * (s2 * s3)) (s2 * s3) s3 row col depth depth2 =
        row * (s1 * (s2 * s3)) + (col * (s2 * s3) + (depth * s3 + depth2)) := by
      simp only [UVfrom4DIndex]
      ring
    simp only [sampler4DGenericAddr, harr, flatIndexToTexel_of_lt _ _ _ hi,
      sampler4DFastAddr, Nat.add_assoc]

theorem sampler_fast_path_equivalence_witness :
    sampler3DFastAddr 3 5 1 2 = sampler3DGenericAddr (2 * 3) (2 * 3) 3 5 1 2 ∧
    sampler4DFastAddr (3 * 4) 4 5 1 2 3 =
      sampler4DGenericAddr (2 * (3 * 4)) (2 * (3 * 4)) (3 * 4) 4 5 1 2 3 :=
  sampler_fast_path_equivalence 2 3 4 5 1 2 3 (by decide) (by decide) (by decide)

/-- C6: for every rank 1-4 and every logical shape, decomposing a flat index
into coordinates by the repeated division/remainder of the generated
`getOutputCoords` decoders and recomposing by the stride law of the
`UVfrom*` helpers returns the index exactly (the strides are those the source
computes: rank 3 uses `stride0 = shape1 * shape2`, `stride1 = shape2`; rank 4
uses `stride2 = shape3`, `stride1 = shape2 * stride2`,
`stride0 = shape1 * stride1`). -/
theorem coords_round_trip :
    (∀ s0 i : Nat, i < s0 → UVfrom1DIndex (output1DCoords i) = i) ∧
    (∀ s0 s1 i : Nat, i < s0 * s1 →
      UVfrom2DIndex s1 (output2DCoords s1 i).1 (output2DCoords s1 i).2 = i) ∧
    (∀ s0 s1 s2 i : Nat, i < s0 * (s1 * s2) →
      UVfrom3DIndex (s1 * s2) s2 (output3DCoords (s1 * s2) s2 i).1
        (output3DCoords (s1 * s2) s2 i).2.1
        (output3DCoords (s1 * s2) s2 i).2.2 = i) ∧
    (∀ s0 s1 s2 s3 i : Nat, i < s0 * (s1 * (s2 * s3)) →
      UVfrom4DIndex (s1 * (s2 * s3)) (s2 * s3) s3
        (output4DCoords (s1 * (s2 * s3)) (s2 * s3) s3 i).1
        (output4DCoords (s1 * (s2 * s3)) (s2 * s3) s3 i).2.1
        (output4DCoords (s1 * (s2 * s3)) (s2 * s3) s3 i).2.2.1
        (output4DCoords (s1 * (s2 * s3)) (s2 * s3) s3 i).2.2.2 = i) := by
  refine ⟨fun s0 i _ => rfl, fun s0 s1 i _ => ?_, fun s0 s1 s2 i _ => ?_,
    fun s0 s1 s2 s3 i _ => ?_⟩
  · simp only [output2DCoords, UVfrom2DIndex, sub_div_mul_eq_mod]
    exact Nat.div_add_mod' i s1
  · simp only [output3DCoords, UVfrom3DIndex, sub_div_mul_eq_mod]
    rw [Nat.add_assoc, Nat.div_add_mod' (i % (s1 * s2)) s2,
      Nat.div_add_mod' i (s1 * s2)]
  · simp only [output4DCoords, UVfrom4DIndex, sub_div_mul_eq_mod]
    rw [Nat.add_assoc, Nat.add_assoc,
      Nat.div_add_mod' (i % (s1 * (s2 * s3)) % (s2 * s3)) s3,
      Nat.div_add_mod' (i % (s1 * (s2 * s3))) (s2 * s3),
      Nat.div_add_mod' i (s1 * (s2 * s3))]

/-- The second (g) channel digit `floor(fract(a) * 255)` is at most 254. -/
theorem encode_g_floor_lt (A : ℚ) : ⌊Int.fract A * 255⌋ < (255 : ℤ) := by
  rw [Int.floor_lt]
  have h := Int.fract_lt_one A
  have h0 := Int.fract_nonneg A
  push_cast
  nlinarith

/-- The second channel value of an arithmetic encode is never the sentinel
channel value. -/
theorem encode_g_channel_ne (A : ℚ) :
    ((⌊Int.fract A * 255⌋ : ℚ) / 255) ≠ ((tex_util.BYTE_NAN_VALUE : ℕ) : ℚ) := by
  have hg := encode_g_floor_lt A
  intro hcon
  simp only [tex_util.BYTE_NAN_VALUE, Nat.cast_one] at hcon
  have h255 : ((⌊Int.fract A * 255⌋ : ℚ)) = 255 := by
    field_simp at hcon
    exact hcon
  have : ⌊Int.fract A * 255⌋ = (255 : ℤ) := by exact_mod_cast h255
  omega

/-- Encoding the lower bound itself produces the all-zero texel: a sentinel
channel value of `0` (byte 0) would collide with the encoding of `MIN`, which
is why the modelled `BYTE_NAN_VALUE` is the one byte value the digit
extraction cannot repeat across all four channels. -/
theorem encodeChannels_min (minValue maxValue : ℚ) :
    encodeChannels minValue maxValue minValue = ⟨0, 0, 0, 0⟩ := by
  have hA : minValue * (1 / ((maxValue - minValue) / 255)) +
      (-minValue) * (1 / ((maxValue - minValue) / 255)) = 0 := by ring
  simp [encodeChannels, hA]

/-- `floor(d/255 * 255 + 0.5) = d` for an integer digit `d`: the decoder's
rounding step recovers each stored digit exactly. -/
theorem floor_digit_clean (d : ℤ) : ⌊(d : ℚ) / 255 * 255 + 1/2⌋ = d := by
  have h1 : ((d : ℚ) / 255) * 255 + 1/2 = 1/2 + (d : ℚ) := by ring
  rw [h1, Int.floor_add_int]
  norm_num

/-- The telescoping identity behind the byte codec: if `D1..D4` are the
stored digits of `A` (each the gap between a scaled fractional part and the
next), decoding them with weights `1, 1/255, 1/255^2, 1/255^3` and
denormalizing recovers `v` up to `F4` quantization steps. -/
theorem digit_decode_eq (MIN MAX v A F1 F2 F3 F4 D1 D2 D3 D4 : ℚ)
    (h1 : D1 = A - F1) (h2 : D2 = F1 * 255 - F2) (h3 : D3 = F2 * 255 - F3)
    (h4 : D4 = F3 * 255 - F4)
    (hAv : A * ((MAX - MIN) / 255) = v - MIN) :
    MIN * 1 + (D1 * 1 + D2 * (1 / 255) + D3 * (1 / (255 * 255)) +
        D4 * (1 / (255 * 255 * 255))) * ((MAX - MIN) / 255) =
      v - F4 * ((MAX - MIN) / 255 ^ 4) := by
  subst h1 h2 h3 h4
  linear_combination hAv

/-- Decoding an arithmetic encode lands below the input by `f` quantization
steps for some `f ∈ [0, 1)`: the exact residual of truncating the normalized
value to four base-255 digits. -/
theorem sampleByte_encode_residual (minValue maxValue v : ℚ)
    (hlt : minValue < maxValue) :
    ∃ f : ℚ, 0 ≤ f ∧ f < 1 ∧
      sampleByte minValue maxValue (encodeChannels minValue maxValue v) =
        some (v - f * ((maxValue - minValue) / 255 ^ 4)) := by
  have hd : (0 : ℚ) < maxValue - minValue := sub_pos.mpr hlt
  have hd' : maxValue - minValue ≠ 0 := ne_of_gt hd
  refine ⟨Int.fract (Int.fract (Int.fract (Int.fract
      (v * (1 / ((maxValue - minValue) / 255)) +
        (-minValue) * (1 / ((maxValue - minValue) / 255))) * 255) * 255) * 255),
    Int.fract_nonneg _, Int.fract_lt_one _, ?_⟩
  simp only [encodeChannels, sampleByte]
  split
  · next h =>
    exact absurd h.2.1 (encode_g_channel_ne _)
  · next h =>
    simp only [floor_digit_clean]
    have h1 := (Int.self_sub_fract (v * (1 / ((maxValue - minValue) / 255)) +
      (-minValue) * (1 / ((maxValue - minValue) / 255)))).symm
    have h2 := (Int.self_sub_fract (Int.fract
      (v * (1 / ((maxValue - minValue) / 255)) +
        (-minValue) * (1 / ((maxValue - minValue) / 255))) * 255)).symm
    have h3 := (Int.self_sub_fract (Int.fract (Int.fract
      (v * (1 / ((maxValue - minValue) / 255)) +
        (-minValue) * (1 / ((maxValue - minValue) / 255))) * 255) * 255)).symm
    have h4 := (Int.self_sub_fract (Int.fract (Int.fract (Int.fract
      (v * (1 / ((maxValue - minValue) / 255)) +
        (-minValue) * (1 / ((maxValue - minValue) / 255))) * 255) * 255) * 255)).symm
    have hAv : (v * (1 / ((maxValue - minValue) / 255)) +
        (-minValue) * (1 / ((maxValue - minValue) / 255))) *
          ((maxValue - minValue) / 255) = v - minValue := by
      field_simp
      ring
    rw [Option.some.injEq]
    exact digit_decode_eq minValue maxValue v _ _ _ _ _ _ _ _ _ h1 h2 h3 h4 hAv

/-- C2: under the quantized codec, for every `v` in `[MIN, MAX]` decoding the
four channel values produced by encoding `v` recovers `v` within the
quantization bound `(MAX - MIN) / 255^4`, with the channel arithmetic
modelled exactly on the rationals; and decoding the encode of NaN is exactly
NaN, because the encoder emits the sentinel texel for NaN and the decoder
returns NaN on exactly that texel.  Stated for arbitrary bounds
`MIN < MAX` (the concrete engine-wide pair lives in tex_util, outside the
staged sources). -/
theorem byte_codec_round_trip (minValue maxValue v : ℚ)
    (hlt : minValue < maxValue) (hv1 : minValue ≤ v) (hv2 : v ≤ maxValue) :
    (∃ w, sampleByte minValue maxValue
        (setOutputByte minValue maxValue (some v)) = some w ∧
      |w - v| ≤ (maxValue - minValue) / 255 ^ 4) ∧
    sampleByte minValue maxValue (setOutputByte minValue maxValue none) =
      none := by
  constructor
  · obtain ⟨f, hf0, hf1, heq⟩ := sampleByte_encode_residual minValue maxValue v hlt
    refine ⟨v - f * ((maxValue - minValue) / 255 ^ 4), ?_, ?_⟩
    · simpa [setOutputByte] using heq
    · have hB : (0 : ℚ) ≤ (maxValue - minValue) / 255 ^ 4 := by
        have hp := sub_pos.mpr hlt
        positivity
      have habs : v - f * ((maxValue - minValue) / 255 ^ 4) - v =
          -(f * ((maxValue - minValue) / 255 ^ 4)) := by ring
      rw [habs, abs_neg, abs_of_nonneg (mul_nonneg hf0 hB)]
      nlinarith
  · simp [setOutputByte, sampleByte, nanTexel]

theorem byte_codec_round_trip_witness :
    (∃ w, sampleByte (-1) 1 (setOutputByte (-1) 1 (some (1/2))) = some w ∧
      |w - 1/2| ≤ (1 - (-1)) / 255 ^ 4) ∧
    sampleByte (-1) 1 (setOutputByte (-1) 1 none) = none :=
  byte_codec_round_trip (-1) 1 (1/2) (by norm_num) (by norm_num) (by norm_num)

/-- C3: the four channel values produced by the arithmetic encode path for an
in-range non-NaN value are never all equal to the NaN sentinel channel value
(the second channel digit cannot reach the sentinel byte); equivalently, the
sentinel-equality branch of the decoder is unreachable for such a texel, so
its decode `isSome`. -/
theorem encode_misses_nan_sentinel (minValue maxValue v : ℚ)
    (hlt : minValue < maxValue) (hv1 : minValue ≤ v) (hv2 : v ≤ maxValue) :
    encodeChannels minValue maxValue v ≠ nanTexel ∧
    (sampleByte minValue maxValue
      (encodeChannels minValue maxValue v)).isSome = true := by
  constructor
  · intro hcon
    have hg : (encodeChannels minValue maxValue v).g =
        (tex_util.BYTE_NAN_VALUE : ℚ) := by
      rw [hcon]
      rfl
    simp only [encodeChannels] at hg
    exact encode_g_channel_ne _ hg
  · obtain ⟨f, hf0, hf1, heq⟩ := sampleByte_encode_residual minValue maxValue v hlt
    rw [heq]
    rfl

theorem encode_misses_nan_sentinel_witness :
    encodeChannels (-1) 1 (1/2) ≠ nanTexel ∧
    (sampleByte (-1) 1 (encodeChannels (-1) 1 (1/2))).isSome = true :=
  encode_misses_nan_sentinel (-1) 1 (1/2) (by norm_num) (by norm_num)
    (by norm_num)

/-! ## Error propagation and assembly -/

theorem getInputSamplingSnippet_error (x : InputInfo) (out : ShapeInfo)
    (bc : Bool) (h : 4 < x.shapeInfo.logicalShape.length) :
    ∃ e, getInputSamplingSnippet x out bc = Except.error e := by
  obtain ⟨nm, ls, ts, fmt⟩ := x
  rcases ls with _ | ⟨a, _ | ⟨b, _ | ⟨c, _ | ⟨d, _ | ⟨e0, tl⟩⟩⟩⟩⟩ <;>
    simp_all [getInputSamplingSnippet, Except.map]

theorem getOutputSamplingSnippet_error (out : ShapeInfo)
    (h : 4 < out.logicalShape.length) :
    ∃ e, getOutputSamplingSnippet out = Except.error e := by
  obtain ⟨ls, ts, fmt⟩ := out
  rcases ls with _ | ⟨a, _ | ⟨b, _ | ⟨c, _ | ⟨d, _ | ⟨e0, tl⟩⟩⟩⟩⟩ <;>
    simp_all [getOutputSamplingSnippet]

theorem mapInputSnippets_error (out : ShapeInfo) (bc : Bool)
    (ins : List InputInfo) (x : InputInfo) (hx : x ∈ ins)
    (h : 4 < x.shapeInfo.logicalShape.length) :
    ∃ e, mapInputSnippets out bc ins = Except.error e := by
  induction ins with
  | nil => simp at hx
  | cons a tl ih =>
    rcases List.mem_cons.mp hx with rfl | hmem
    · obtain ⟨e, he⟩ := getInputSamplingSnippet_error x out bc h
      exact ⟨e, by simp [mapInputSnippets, he]⟩
    · cases hga : getInputSamplingSnippet a out bc with
      | error e => exact ⟨e, by simp [mapInputSnippets, hga]⟩
      | ok s =>
        obtain ⟨e, he⟩ := ih hmem
        exact ⟨e, by simp [mapInputSnippets, hga, he]⟩

theorem getInputSamplingSnippet_ok (x : InputInfo) (out : ShapeInfo)
    (bc : Bool) (h : x.shapeInfo.logicalShape.length ≤ 4) :
    getInputSamplingSnippet x out bc =
      Except.ok (inputSamplingText x out bc) := by
  obtain ⟨nm, ls, ts, fmt⟩ := x
  rcases ls with _ | ⟨a, _ | ⟨b, _ | ⟨c, _ | ⟨d, _ | ⟨e0, tl⟩⟩⟩⟩⟩ <;>
    simp_all [getInputSamplingSnippet, inputSamplingText, Except.map]

theorem mapInputSnippets_ok (out : ShapeInfo) (bc : Bool)
    (ins : List InputInfo)
    (h : ∀ x ∈ ins, x.shapeInfo.logicalShape.length ≤ 4) :
    mapInputSnippets out bc ins =
      Except.ok (ins.map (fun x => inputSamplingText x out bc)) := by
  induction ins with
  | nil => rfl
  | cons a tl ih =>
    have ha := getInputSamplingSnippet_ok a out bc (h a (List.mem_cons_self a tl))
    have htl := ih (fun x hx => h x (List.mem_cons_of_mem a hx))
    simp [mapInputSnippets, ha, htl]

theorem getOutputSamplingSnippet_ok (out : ShapeInfo)
    (h : out.logicalShape.length ≤ 4) :
    getOutputSamplingSnippet out = Except.ok (outputSamplingText out) := by
  obtain ⟨ls, ts, fmt⟩ := out
  rcases ls with _ | ⟨a, _ | ⟨b, _ | ⟨c, _ | ⟨d, _ | ⟨e0, tl⟩⟩⟩⟩⟩ <;>
    simp_all [getOutputSamplingSnippet, outputSamplingText]

/-- The full assembly equation for any compilation whose descriptors all
have supported ranks (shared by the assembly-order and packing-format
claims). -/
theorem makeShader_ok_eq (flag : Bool) (ins : List InputInfo)
    (out : ShapeInfo) (userCode : String) (bc : Bool)
    (hin : ∀ x ∈ ins, x.shapeInfo.logicalShape.length ≤ 4)
    (hout : out.logicalShape.length ≤ 4) :
    makeShader flag ins out userCode bc = Except.ok (String.intercalate "\n"
      [SHADER_PREFIX, getSampleSnippet flag, getSetOutputSnippet flag out,
       String.intercalate "\n"
         (ins.map (fun x => "uniform sampler2D " ++ x.name ++ ";")),
       String.intercalate "\n" (ins.map (fun x => inputSamplingText x out bc)),
       outputSamplingText out, userCode]) := by
  simp [makeShader, mapInputSnippets_ok out bc ins hin,
    getOutputSamplingSnippet_ok out hout]

/-- C7: a descriptor (input or output) whose logical shape has rank above 4
makes the compilation fail synchronously with the unsupported-rank error, and
no shader text is returned (the result is an `error`, not an `ok`). -/
theorem makeShader_unsupported_rank (flag : Bool) (ins : List InputInfo)
    (out : ShapeInfo) (userCode : String) (bc : Bool)
    (h : (∃ x ∈ ins, 4 < x.shapeInfo.logicalShape.length) ∨
      4 < out.logicalShape.length) :
    ∃ e, makeShader flag ins out userCode bc = Except.error e := by
  rcases h with ⟨x, hx, hxr⟩ | hout
  · obtain ⟨e, he⟩ := mapInputSnippets_error out bc ins x hx hxr
    exact ⟨e, by simp [makeShader, he]⟩
  · obtain ⟨e, he⟩ := getOutputSamplingSnippet_error out hout
    cases hms : mapInputSnippets out bc ins with
    | error e2 => exact ⟨e2, by simp [makeShader, hms]⟩
    | ok ss => exact ⟨e, by simp [makeShader, hms, he]⟩

theorem makeShader_unsupported_rank_witness :
    ∃ e, makeShader true []
      ⟨[1, 1, 1, 1, 1], (1, 1), TextureChannelPackingFormat.R⟩ "x" false =
        Except.error e :=
  makeShader_unsupported_rank true []
    ⟨[1, 1, 1, 1, 1], (1, 1), TextureChannelPackingFormat.R⟩ "x" false
    (Or.inr (by decide))

/-- C8: a successful compilation returns exactly the concatenation, separated
by single line breaks and in this fixed order: the shape-independent prefix,
the selected codec's decode (sample) snippet, the selected codec's encode
(setOutput) snippet, one uniform declaration per input in input-list order,
the per-input addressing snippets in input-list order, the output-coordinate
decoder, and the caller-supplied body unmodified. -/
theorem makeShader_assembly_order (flag : Bool) (ins : List InputInfo)
    (out : ShapeInfo) (userCode : String) (bc : Bool)
    (hin : ∀ x ∈ ins, x.shapeInfo.logicalShape.length ≤ 4)
    (hout : out.logicalShape.length ≤ 4) :
    makeShader flag ins out userCode bc = Except.ok (String.intercalate "\n"
      [SHADER_PREFIX, getSampleSnippet flag, getSetOutputSnippet flag out,
       String.intercalate "\n"
         (ins.map (fun x => "uniform sampler2D " ++ x.name ++ ";")),
       String.intercalate "\n" (ins.map (fun x => inputSamplingText x out bc)),
       outputSamplingText out, userCode]) :=
  makeShader_ok_eq flag ins out userCode bc hin hout

theorem makeShader_assembly_order_witness :
    makeShader true [] ⟨[], (1, 1), TextureChannelPackingFormat.R⟩ "body" false =
      Except.ok (String.intercalate "\n"
        [SHADER_PREFIX, getSampleSnippet true,
         getSetOutputSnippet true ⟨[], (1, 1), TextureChannelPackingFormat.R⟩,
         String.intercalate "\n"
           (([] : List InputInfo).map
             (fun x => "uniform sampler2D " ++ x.name ++ ";")),
         String.intercalate "\n"
           (([] : List InputInfo).map (fun x =>
             inputSamplingText x ⟨[], (1, 1), TextureChannelPackingFormat.R⟩ false)),
         outputSamplingText ⟨[], (1, 1), TextureChannelPackingFormat.R⟩,
         "body"]) :=
  makeShader_assembly_order true [] ⟨[], (1, 1), TextureChannelPackingFormat.R⟩
    "body" false (by simp) (by decide)

/-- C4 counterexample: a compilation whose output descriptor carries the
RGBA_1_BY_4 packing format succeeds - no error is raised and shader text is
produced - contradicting the claim that non-R formats are rejected at compile
time. -/
theorem packing_format_not_rejected :
    (makeShader true []
      ⟨[], (1, 1), TextureChannelPackingFormat.RGBA_1_BY_4⟩ "x" false).isOk =
      true := by
  rfl

/-- C4 amended: no packing-format validation is performed (the dispatch that
would raise the error is commented out in the source); a compilation with
supported ranks succeeds whatever packing format the output descriptor
carries. -/
theorem makeShader_accepts_all_packing_formats (flag : Bool)
    (ins : List InputInfo) (ls : List Nat) (ts : Nat × Nat)
    (fmt : TextureChannelPackingFormat) (userCode : String) (bc : Bool)
    (hin : ∀ x ∈ ins, x.shapeInfo.logicalShape.length ≤ 4)
    (hout : ls.length ≤ 4) :
    ∃ s, makeShader flag ins ⟨ls, ts, fmt⟩ userCode bc = Except.ok s :=
  ⟨_, makeShader_ok_eq flag ins ⟨ls, ts, fmt⟩ userCode bc hin hout⟩

theorem makeShader_accepts_all_packing_formats_witness :
    ∃ s, makeShader true [] ⟨[], (1, 1),
      TextureChannelPackingFormat.RGBA_1_BY_4⟩ "x" false = Except.ok s :=
  makeShader_accepts_all_packing_formats true [] [] (1, 1)
    TextureChannelPackingFormat.RGBA_1_BY_4 "x" false (by simp) (by decide)

/-! ## Packing-format independence -/

theorem getInputSamplingSnippet_format_congr (x y : InputInfo)
    (outA outB : ShapeInfo) (bc : Bool) (hxy : SameButFormatInput x y)
    (hout : SameButFormat outA outB) :
    getInputSamplingSnippet x outA bc = getInputSamplingSnippet y outB bc := by
  obtain ⟨nx, lsx, tsx, fx⟩ := x
  obtain ⟨ny, lsy, tsy, fy⟩ := y
  obtain ⟨lo1, to1, fo1⟩ := outA
  obtain ⟨lo2, to2, fo2⟩ := outB
  obtain ⟨hn, hls, hts⟩ := hxy
  obtain ⟨hlo, hto⟩ := hout
  simp only at hn hls hts hlo hto
  subst hn hls hts hlo hto
  rfl

theorem mapInputSnippets_format_congr (outA outB : ShapeInfo) (bc : Bool)
    (insA insB : List InputInfo)
    (hins : List.Forall₂ SameButFormatInput insA insB)
    (hout : SameButFormat outA outB) :
    mapInputSnippets outA bc insA = mapInputSnippets outB bc insB := by
  induction hins with
  | nil => rfl
  | cons hxy htl ih =>
    simp [mapInputSnippets,
      getInputSamplingSnippet_format_congr _ _ _ _ bc hxy hout, ih]

theorem declSnippet_format_congr (insA insB : List InputInfo)
    (hins : List.Forall₂ SameButFormatInput insA insB) :
    insA.map (fun x => "uniform sampler2D " ++ x.name ++ ";") =
      insB.map (fun x => "uniform sampler2D " ++ x.name ++ ";") := by
  induction hins with
  | nil => rfl
  | cons hxy htl ih => simp [hxy.1, ih]

/-- C10: the shader text is independent of every descriptor's
`textureChannelPackingFormat` field: two argument lists that differ only in
packing-format values produce identical results (in particular no
packing-format value turns a success into an error). -/
theorem makeShader_packing_format_independent (flag : Bool) (bc : Bool)
    (userCode : String) (insA insB : List InputInfo) (outA outB : ShapeInfo)
    (hins : List.Forall₂ SameButFormatInput insA insB)
    (hout : SameButFormat outA outB) :
    makeShader flag insA outA userCode bc =
      makeShader flag insB outB userCode bc := by
  have hmap := mapInputSnippets_format_congr outA outB bc insA insB hins hout
  have hdecl := declSnippet_format_congr insA insB hins
  have houts : getOutputSamplingSnippet outA = getOutputSamplingSnippet outB := by
    obtain ⟨lo1, to1, fo1⟩ := outA
    obtain ⟨lo2, to2, fo2⟩ := outB
    obtain ⟨hlo, hto⟩ := hout
    simp only at hlo hto
    subst hlo hto
    rfl
  have hset : getSetOutputSnippet flag outA = getSetOutputSnippet flag outB := rfl
  simp [makeShader, hmap, hdecl, houts, hset]

theorem makeShader_packing_format_independent_witness :
    makeShader true [⟨"a", ⟨[], (1, 1), TextureChannelPackingFormat.R⟩⟩]
        ⟨[], (1, 1), TextureChannelPackingFormat.R⟩ "x" false =
      makeShader true
        [⟨"a", ⟨[], (1, 1), TextureChannelPackingFormat.RGBA_1_BY_4⟩⟩]
        ⟨[], (1, 1), TextureChannelPackingFormat.RGBA_1_BY_4⟩ "x" false :=
  makeShader_packing_format_independent true false "x" _ _ _ _
    (List.Forall₂.cons ⟨rfl, rfl, rfl⟩ List.Forall₂.nil) ⟨rfl, rfl⟩

set_option maxHeartbeats 2000000 in
/-- C9: for every input identifier `name`, every emitted accessor declares
exactly the derived name - `get` + capitalize(name) for the random-access
sampler of each rank, with suffix `Flat` for the flat sampler and
`AtOutCoords` for the broadcast accessor, where `capitalize` upper-cases the
first character and leaves the rest unchanged - and every emitted
output-coordinate decoder is named exactly `getOutputCoords`. -/
theorem accessor_naming (name : String) (texShape outTexShape : Nat × Nat)
    (sh2 : Nat × Nat) (sh3 : Nat × Nat × Nat) (sh4 : Nat × Nat × Nat × Nat)
    (bc : Bool) (n1 : Nat) :
    StrContains (getSamplerScalar name)
      ("float " ++ ("get" ++ capitalize name) ++ "()") ∧
    StrContains (getSampler1D name texShape)
      ("float " ++ ("get" ++ capitalize name) ++ "(int index)") ∧
    StrContains (getSampler2D name sh2 texShape)
      ("float " ++ ("get" ++ capitalize name) ++ "(int row, int col)") ∧
    StrContains (getSampler3D name sh3 texShape)
      ("float " ++ ("get" ++ capitalize name) ++
        "(int row, int col, int depth)") ∧
    StrContains (getSampler4D name sh4 texShape)
      ("float " ++ ("get" ++ capitalize name) ++
        "(int row, int col, int depth, int depth2)") ∧
    StrContains (getSamplerFlat name texShape)
      ("float " ++ ("get" ++ capitalize name ++ "Flat") ++ "(int index)") ∧
    StrContains (getSamplerAtOutputCoords name texShape outTexShape bc)
      ("float " ++ ("get" ++ capitalize name ++ "AtOutCoords") ++ "()") ∧
    StrContains (getOutput1DCoords n1 texShape) "int getOutputCoords()" ∧
    StrContains (getOutput2DCoords sh2 texShape) "ivec2 getOutputCoords()" ∧
    StrContains (getOutput3DCoords sh3 texShape) "ivec3 getOutputCoords()" ∧
    StrContains (getOutput4DCoords sh4 texShape) "ivec4 getOutputCoords()" := by
  refine ⟨?_, ?_, ?_, ?_, ?_, ?_, ?_, ?_, ?_, ?_, ?_⟩
  · simp only [getSamplerScalar, derivedFuncName_eq]
    iterate 2 apply strContains_cat_right
    exact strContains_glue _ _ _ _ _ (by decide) (by decide)
  · simp only [getSampler1D, derivedFuncName_eq]
    split_ifs
    · iterate 2 apply strContains_cat_right
      exact strContains_glue _ _ _ _ _ (by decide) (by decide)
    · iterate 4 apply strContains_cat_right
      exact strContains_glue _ _ _ _ _ (by decide) (by decide)
    · iterate 4 apply strContains_cat_right
      exact strContains_glue _ _ _ _ _ (by decide) (by decide)
    · iterate 6 apply strContains_cat_right
      exact strContains_glue _ _ _ _ _ (by decide) (by decide)
  · simp only [getSampler2D, derivedFuncName_eq]
    split_ifs
    · iterate 6 apply strContains_cat_right
      exact strContains_glue _ _ _ _ _ (by decide) (by decide)
    · iterate 4 apply strContains_cat_right
      exact strContains_glue _ _ _ _ _ (by decide) (by decide)
    · iterate 4 apply strContains_cat_right
      exact strContains_glue _ _ _ _ _ (by decide) (by decide)
    · iterate 6 apply strContains_cat_right
      exact strContains_glue _ _ _ _ _ (by decide) (by decide)
    · iterate 6 apply strContains_cat_right
      exact strContains_glue _ _ _ _ _ (by decide) (by decide)
    · iterate 8 apply strContains_cat_right
      exact strContains_glue _ _ _ _ _ (by decide) (by decide)
  · simp only [getSampler3D, derivedFuncName_eq]
    split_ifs
    · iterate 8 apply strContains_cat_right
      exact strContains_glue _ _ _ _ _ (by decide) (by decide)
    · iterate 10 apply strContains_cat_right
      exact strContains_glue _ _ _ _ _ (by decide) (by decide)
  · simp only [getSampler4D, derivedFuncName_eq]
    split_ifs
    · iterate 10 apply strContains_cat_right
      exact strContains_glue _ _ _ _ _ (by decide) (by decide)
    · iterate 12 apply strContains_cat_right
      exact strContains_glue _ _ _ _ _ (by decide) (by decide)
  · simp only [getSamplerFlat, derivedFuncName_eq]
    split_ifs
    · iterate 2 apply strContains_cat_right
      exact strContains_glue _ _ _ _ _ (by decide) (by decide)
    · iterate 4 apply strContains_cat_right
      exact strContains_glue _ _ _ _ _ (by decide) (by decide)
    · iterate 4 apply strContains_cat_right
      exact strContains_glue _ _ _ _ _ (by decide) (by decide)
    · iterate 10 apply strContains_cat_right
      exact strContains_glue _ _ _ _ _ (by decide) (by decide)
  · simp only [getSamplerAtOutputCoords, derivedFuncName_eq]
    split_ifs
    · iterate 2 apply strContains_cat_right
      exact strContains_glue _ _ _ _ _ (by decide) (by decide)
    · iterate 18 apply strContains_cat_right
      exact strContains_glue _ _ _ _ _ (by decide) (by decide)
    · iterate 18 apply strContains_cat_right
      exact strContains_glue _ _ _ _ _ (by decide) (by decide)
  · simp only [getOutput1DCoords]
    split_ifs
    all_goals
      repeat apply strContains_cat_right
    all_goals decide
  · simp only [getOutput2DCoords]
    split_ifs
    all_goals
      repeat apply strContains_cat_right
    all_goals decide
  · simp only [getOutput3DCoords]
    repeat apply strContains_cat_right
    decide
  · simp only [getOutput4DCoords]
    repeat apply strContains_cat_right
    decide

end ShaderCompiler
